import Mathlib

/-!
Shallow embedding of `src/api/index.py`, a FastAPI gateway over the
youtube-transcript-api provider.  The Transcript Provider is modelled as a
structure of response functions (a black box that either returns data or
raises an exception carrying a message string).  Each route handler is
translated into a pure function returning its HTTP outcome together with the
ordered trace of provider calls it made.  Python exception flow is translated
explicitly: `raise HTTPException` inside a `try` block whose handler is a
blanket `except Exception` is caught by that handler, because FastAPI
HTTPException is an Exception subclass.
-/

/-- One caption entry as returned by the provider: the dict keys `text`,
`start`, `duration` read at lines 71-73 of `index.py`. -/
structure CaptionEntry where
  text : String
  start : Rat
  duration : Rat
deriving DecidableEq, Repr

/-- One element of the enumeration `list_transcripts` yields: the four
attributes read at lines 194-197 of `index.py`. -/
structure LanguageDescriptor where
  language : String
  language_code : String
  is_generated : Bool
  is_translatable : Bool
deriving DecidableEq, Repr

/-- `raise HTTPException(status_code, detail)`. -/
structure HTTPError where
  status : Nat
  detail : String
deriving DecidableEq, Repr

/-- The JSON envelope built at lines 78-84 (default-transcript operation;
note: no `language` field). -/
structure TranscriptResponse where
  video_id : String
  transcript : List CaptionEntry
  full_text : String
  total_entries : Nat
  proxy_used : Bool
deriving DecidableEq, Repr

/-- The JSON envelope built at lines 144-151 (language operation; includes
the `language` field). -/
structure TranscriptLangResponse where
  video_id : String
  language : String
  transcript : List CaptionEntry
  full_text : String
  total_entries : Nat
  proxy_used : Bool
deriving DecidableEq, Repr

/-- The JSON envelope built at lines 200-205 (language-listing operation). -/
structure LanguagesResponse where
  video_id : String
  available_languages : List LanguageDescriptor
  total_languages : Nat
  proxy_used : Bool
deriving DecidableEq, Repr

/-- A provider call either returns a value or raises an exception whose
message is a string (`str(e)` is all the gateway ever inspects). -/
inductive PResult (α : Type) where
  | ok (val : α)
  | err (msg : String)
deriving DecidableEq, Repr

/-- A record of one outbound call to the Transcript Provider, with the
arguments the gateway passed: the optional `languages` preference list and
the optional proxy URL forwarded as the `proxies` map. -/
inductive ProviderCall where
  | getTranscript (video_id : String) (languages : Option (List String)) (proxies : Option String)
  | listTranscripts (video_id : String)
  | findTranscriptFetch (video_id : String) (languages : List String)
deriving DecidableEq, Repr

/-- The Transcript Provider as a black box: responses to each call shape.
`findTranscriptFetch` models `transcript_list.find_transcript(langs).fetch()`
(line 57), which is only reached after `list_transcripts` succeeded. -/
structure Provider where
  getTranscript : String → Option (List String) → Option String → PResult (List CaptionEntry)
  listTranscripts : String → PResult (List LanguageDescriptor)
  findTranscriptFetch : String → List String → PResult (List CaptionEntry)

/-- Outcome of a handler body before the outer `except` clauses run:
a return value, a raised HTTPException, or any other exception. -/
inductive PyOutcome (α : Type) where
  | ok (val : α)
  | httpError (e : HTTPError)
  | exc (msg : String)
deriving DecidableEq, Repr

/-- Lines 86-95 / 153-162 / 207-214: `except HTTPException: raise` re-raises
HTTP errors unchanged; `except Exception as e` classifies any other
exception through the given substring map. -/
def runHandler {α : Type} (errorMap : String → HTTPError) :
    PyOutcome α × List ProviderCall → Except HTTPError α × List ProviderCall
  | (.ok v, calls) => (.ok v, calls)
  | (.httpError e, calls) => (.error e, calls)
  | (.exc msg, calls) => (.error (errorMap msg), calls)

/-- Python truthiness test `if proxy:` at lines 36/107/174: `None` and the
empty string are falsy, so `proxies` is set only for a non-empty proxy. -/
def mkProxies (proxy : Option String) : Option String :=
  match proxy with
  | none => none
  | some p => if p = "" then none else some p

/-- Characters stripped by the Python `str.strip()` default. -/
def pyIsSpace (c : Char) : Bool :=
  c = ' ' || c = '\t' || c = '\n' || c = '\r' || c = '\x0B' || c = '\x0C'

/-- Drop leading whitespace. -/
def lstripList (l : List Char) : List Char :=
  l.dropWhile pyIsSpace

/-- Drop trailing whitespace. -/
def rstripList (l : List Char) : List Char :=
  (l.reverse.dropWhile pyIsSpace).reverse

/-- Python `str.strip()`: remove leading and trailing whitespace. -/
def pyStrip (s : String) : String :=
  String.mk (lstripList (rstripList s.data))

/-- Python substring test `needle in hay` on the character list level. -/
def listInfix (needle : List Char) (hay : List Char) : Bool :=
  match hay with
  | [] => needle.isEmpty
  | _ :: t => needle.isPrefixOf hay || listInfix needle t

/-- Python substring test `needle in hay` for strings. -/
def strContains (hay needle : String) : Bool :=
  listInfix needle.data hay.data

/-- Modelled from the spec: `full_text` is the texts joined by a single
space (Python `" ".join` semantics), before trimming. -/
def pyJoin (sep : String) : List String → String
  | [] => ""
  | [t] => t
  | t :: ts => t ++ (sep ++ pyJoin sep ts)

/-- The accumulation loop at lines 69-76 / 135-142:
`full_text += entry["text"] + " "`. -/
def fullTextFold (transcript : List CaptionEntry) : String :=
  transcript.foldl (fun full_text entry => full_text ++ entry.text ++ " ") ""

/-- Lines 70-74 / 136-140: rebuild each entry keeping exactly the fields
`text`, `start`, `duration`. -/
def formatEntries (transcript : List CaptionEntry) : List CaptionEntry :=
  transcript.map (fun entry =>
    { text := entry.text, start := entry.start, duration := entry.duration })

/-- Lines 78-84: the success envelope of the default-transcript operation.
`proxy_used` is `proxy is not None`. -/
def mkResponse (video_id : String) (transcript : List CaptionEntry)
    (proxy : Option String) : TranscriptResponse :=
  { video_id := video_id
    transcript := formatEntries transcript
    full_text := pyStrip (fullTextFold transcript)
    total_entries := (formatEntries transcript).length
    proxy_used := proxy.isSome }

/-- Lines 144-151: the success envelope of the language operation. -/
def mkLangResponse (video_id language_code : String)
    (transcript : List CaptionEntry) (proxy : Option String) :
    TranscriptLangResponse :=
  { video_id := video_id
    language := language_code
    transcript := formatEntries transcript
    full_text := pyStrip (fullTextFold transcript)
    total_entries := (formatEntries transcript).length
    proxy_used := proxy.isSome }

/-- Line 62: the detail string of the 503 raised when the whole fallback
chain is exhausted; it embeds the step-1 error message. -/
def blockedDetail (first_error : String) : String :=
  "YouTube is blocking requests. Try: 1) Different video ID, 2) Add ?proxy=YOUR_PROXY_URL, 3) Try again later. Original error: " ++ first_error

/-- Lines 88-95: substring classification of a non-HTTP exception in the
default-transcript operation. -/
def errorMapTranscript (error_msg : String) : HTTPError :=
  if strContains error_msg "No transcripts were found" then
    ⟨404, "No transcripts found for this video"⟩
  else if strContains error_msg "Video unavailable" then
    ⟨404, "Video not found or unavailable"⟩
  else
    ⟨500, "Error retrieving transcript: " ++ error_msg⟩

/-- Lines 155-162: substring classification in the language operation. -/
def errorMapLanguage (language_code error_msg : String) : HTTPError :=
  if strContains error_msg "No transcripts were found" then
    ⟨404, "No transcripts found for this video in language: " ++ language_code⟩
  else if strContains error_msg "Video unavailable" then
    ⟨404, "Video not found or unavailable"⟩
  else
    ⟨500, "Error retrieving transcript: " ++ error_msg⟩

/-- Lines 209-214: substring classification in the language-listing
operation. -/
def errorMapLanguages (error_msg : String) : HTTPError :=
  if strContains error_msg "Video unavailable" then
    ⟨404, "Video not found or unavailable"⟩
  else
    ⟨500, "Error retrieving languages: " ++ error_msg⟩

/-- Body of `get_transcript` (lines 29-84): empty-id guard, then the
three-step fallback chain, then the success envelope.  Every failure path
inside the body raises an HTTPException itself, so the body never produces
`PyOutcome.exc`. -/
def get_transcript_body (P : Provider) (video_id : String)
    (proxy : Option String) : PyOutcome TranscriptResponse × List ProviderCall :=
  if video_id = "" then
    (.httpError ⟨400, "Invalid YouTube video ID or URL"⟩, [])
  else
    let proxies := mkProxies proxy
    let call1 := ProviderCall.getTranscript video_id none proxies
    match P.getTranscript video_id none proxies with
    | .ok transcript => (.ok (mkResponse video_id transcript proxy), [call1])
    | .err first_error =>
      let call2 := ProviderCall.getTranscript video_id (some ["en", "en-US", "en-GB"]) none
      match P.getTranscript video_id (some ["en", "en-US", "en-GB"]) none with
      | .ok transcript => (.ok (mkResponse video_id transcript proxy), [call1, call2])
      | .err _second_error =>
        let call3 := ProviderCall.listTranscripts video_id
        match P.listTranscripts video_id with
        | .ok _transcript_list =>
          let call4 := ProviderCall.findTranscriptFetch video_id ["en", "en-US"]
          match P.findTranscriptFetch video_id ["en", "en-US"] with
          | .ok transcript =>
            (.ok (mkResponse video_id transcript proxy), [call1, call2, call3, call4])
          | .err _ =>
            (.httpError ⟨503, blockedDetail first_error⟩, [call1, call2, call3, call4])
        | .err _ =>
          (.httpError ⟨503, blockedDetail first_error⟩, [call1, call2, call3])

/-- The `/api/transcript/{video_id}` handler: body plus the outer
`except` clauses. -/
def get_transcript (P : Provider) (video_id : String) (proxy : Option String) :
    Except HTTPError TranscriptResponse × List ProviderCall :=
  runHandler errorMapTranscript (get_transcript_body P video_id proxy)

/-- Lines 119-129: fallback of the language operation after the single fetch
failed.  The detailed 404 built at lines 124-127 (quoting the requested
language and listing every available language code) is raised inside the
inner `try`, whose handler is the blanket `except Exception:` at line 128;
HTTPException is an Exception, so that raise is caught and replaced by the
generic 404 of line 129 on every path. -/
def langFallback (P : Provider) (video_id language_code : String) :
    HTTPError × List ProviderCall :=
  let callL := ProviderCall.listTranscripts video_id
  match P.listTranscripts video_id with
  | .ok _transcript_list =>
    (⟨404, "No transcripts found for this video in language: " ++ language_code⟩, [callL])
  | .err _ =>
    (⟨404, "No transcripts found for this video in language: " ++ language_code⟩, [callL])

/-- Body of `get_transcript_with_language` (lines 100-151). -/
def get_transcript_with_language_body (P : Provider)
    (language_code video_id : String) (proxy : Option String) :
    PyOutcome TranscriptLangResponse × List ProviderCall :=
  if video_id = "" then
    (.httpError ⟨400, "Invalid YouTube video ID or URL"⟩, [])
  else
    let proxies := mkProxies proxy
    let callF := ProviderCall.getTranscript video_id (some [language_code]) proxies
    match P.getTranscript video_id (some [language_code]) proxies with
    | .ok transcript =>
      (.ok (mkLangResponse video_id language_code transcript proxy), [callF])
    | .err _ =>
      let fb := langFallback P video_id language_code
      (.httpError fb.fst, callF :: fb.snd)

/-- The `/api/transcript-{language_code}/{video_id}` handler. -/
def get_transcript_with_language (P : Provider) (language_code video_id : String)
    (proxy : Option String) :
    Except HTTPError TranscriptLangResponse × List ProviderCall :=
  runHandler (errorMapLanguage language_code)
    (get_transcript_with_language_body P language_code video_id proxy)

/-- Body of `get_available_languages` (lines 167-205).  Lines 178-184 call
`list_transcripts(video_id)` identically in both branches of `if proxies:`;
the proxy is never forwarded to the enumeration call. -/
def get_available_languages_body (P : Provider) (video_id : String)
    (proxy : Option String) : PyOutcome LanguagesResponse × List ProviderCall :=
  if video_id = "" then
    (.httpError ⟨400, "Invalid YouTube video ID or URL"⟩, [])
  else
    let _proxies := mkProxies proxy
    let callL := ProviderCall.listTranscripts video_id
    match P.listTranscripts video_id with
    | .ok transcript_list =>
      let available_languages := transcript_list.map (fun transcript =>
        { language := transcript.language
          language_code := transcript.language_code
          is_generated := transcript.is_generated
          is_translatable := transcript.is_translatable : LanguageDescriptor })
      (.ok { video_id := video_id
             available_languages := available_languages
             total_languages := available_languages.length
             proxy_used := proxy.isSome }, [callL])
    | .err e =>
      if strContains e "Video unavailable" then
        (.httpError ⟨404, "Video not found or unavailable"⟩, [callL])
      else
        (.httpError ⟨500, "Error retrieving languages: " ++ e⟩, [callL])

/-- The `/api/transcript_languages/{video_id}` handler. -/
def get_available_languages (P : Provider) (video_id : String)
    (proxy : Option String) :
    Except HTTPError LanguagesResponse × List ProviderCall :=
  runHandler errorMapLanguages (get_available_languages_body P video_id proxy)

/-- The accumulation loop on the texts alone. -/
def concatSp (texts : List String) : String :=
  texts.foldl (fun full_text t => full_text ++ t ++ " ") ""

/-- Step 3 of the fallback chain fails: either the enumeration itself fails,
or it succeeds and the subsequent find-and-fetch fails. -/
def step3Fails (P : Provider) (video_id : String) : Prop :=
  (∃ e, P.listTranscripts video_id = .err e)
  ∨ (∃ m e, P.listTranscripts video_id = .ok m
      ∧ P.findTranscriptFetch video_id ["en", "en-US"] = .err e)

/-- Forget the `proxy_used` flag of a listing response. -/
def eraseProxyUsed (r : LanguagesResponse) : LanguagesResponse :=
  { r with proxy_used := false }

/-! ### Concrete providers used to instantiate the theorems -/

/-- Two sample caption entries. -/
def sampleEntries : List CaptionEntry :=
  [{ text := "hello", start := 0, duration := 1 },
   { text := "world", start := 1, duration := 2 }]

/-- A sample transcript-list element. -/
def enDescriptor : LanguageDescriptor :=
  { language := "English", language_code := "en",
    is_generated := true, is_translatable := true }

/-- Provider whose every call succeeds. -/
def Pok : Provider :=
  { getTranscript := fun _ _ _ => .ok sampleEntries
    listTranscripts := fun _ => .ok [enDescriptor]
    findTranscriptFetch := fun _ _ => .ok sampleEntries }

/-- Provider whose every call fails. -/
def Perr : Provider :=
  { getTranscript := fun _ _ _ => .err "step failed"
    listTranscripts := fun _ => .err "enumeration failed"
    findTranscriptFetch := fun _ _ => .err "fetch failed" }

/-- Step 1 (no language preference) fails; any fetch with a language list
succeeds. -/
def Pfb : Provider :=
  { getTranscript := fun _ languages _ =>
      match languages with
      | none => .err "blocked"
      | some _ => .ok sampleEntries
    listTranscripts := fun _ => .ok [enDescriptor]
    findTranscriptFetch := fun _ _ => .ok sampleEntries }

/-- Every caption fetch fails; the enumeration succeeds and shows that only
`en` is available. -/
def Pfr : Provider :=
  { getTranscript := fun _ _ _ => .err "fetch refused"
    listTranscripts := fun _ => .ok [enDescriptor]
    findTranscriptFetch := fun _ _ => .err "fetch refused" }

/-- Every step fails and the step-1 message contains the pattern
"No transcripts were found". -/
def Pblk : Provider :=
  { getTranscript := fun _ languages _ =>
      match languages with
      | none => .err "No transcripts were found for any of the requested language codes"
      | some _ => .err "second failure"
    listTranscripts := fun _ => .err "listing blocked"
    findTranscriptFetch := fun _ _ => .err "fetch blocked" }

/-! ### String lemmas for `full_text` -/

theorem rstripList_append_space (l : List Char) :
    rstripList (l ++ [' ']) = rstripList l := by
  simp [rstripList, List.dropWhile_cons, pyIsSpace]

theorem pyStrip_append_space (s : String) : pyStrip (s ++ " ") = pyStrip s := by
  have h : (s ++ " ").data = s.data ++ [' '] := by
    rw [String.data_append]
  simp [pyStrip, h, rstripList_append_space]

theorem concatSp_foldl_acc (ts : List String) :
    ∀ acc : String,
      ts.foldl (fun full_text t => full_text ++ t ++ " ") acc = acc ++ concatSp ts := by
  induction ts with
  | nil => intro acc; simp [concatSp]
  | cons u us ih =>
    intro acc
    simp only [concatSp, List.foldl_cons]
    rw [ih (acc ++ u ++ " "), ih ("" ++ u ++ " ")]
    simp [String.append_assoc]

theorem concatSp_cons (u : String) (us : List String) :
    concatSp (u :: us) = u ++ " " ++ concatSp us := by
  simp only [concatSp, List.foldl_cons]
  rw [concatSp_foldl_acc us ("" ++ u ++ " ")]
  simp [concatSp]

theorem concatSp_eq_pyJoin (ts : List String) (h : ts ≠ []) :
    concatSp ts = pyJoin " " ts ++ " " := by
  induction ts with
  | nil => exact absurd rfl h
  | cons u us ih =>
    cases us with
    | nil => simp [concatSp_cons, concatSp, pyJoin]
    | cons v vs =>
      rw [concatSp_cons, ih (by simp)]
      simp only [pyJoin]
      rw [← String.append_assoc, ← String.append_assoc]

theorem fullTextFold_eq_concatSp (l : List CaptionEntry) :
    fullTextFold l = concatSp (l.map CaptionEntry.text) := by
  simp [fullTextFold, concatSp, List.foldl_map]

/-- The loop of lines 69-76 followed by `.strip()` computes exactly the
space-join of the texts, trimmed. -/
theorem fullText_spec (l : List CaptionEntry) :
    pyStrip (fullTextFold l) = pyStrip (pyJoin " " (l.map CaptionEntry.text)) := by
  cases l with
  | nil => rfl
  | cons e t =>
    rw [fullTextFold_eq_concatSp, concatSp_eq_pyJoin _ (by simp),
      pyStrip_append_space]

/-! ### Shape of successful handler results -/

theorem formatEntries_id (l : List CaptionEntry) : formatEntries l = l := by
  induction l with
  | nil => rfl
  | cons e t ih =>
    simp only [formatEntries, List.map_cons] at ih ⊢
    rw [ih]

theorem mkResponse_transcript (v : String) (es : List CaptionEntry)
    (p : Option String) : (mkResponse v es p).transcript = es := by
  simp [mkResponse, formatEntries_id]

theorem mkResponse_total (v : String) (es : List CaptionEntry)
    (p : Option String) :
    (mkResponse v es p).total_entries = (mkResponse v es p).transcript.length := rfl

theorem mkResponse_full_text (v : String) (es : List CaptionEntry)
    (p : Option String) :
    (mkResponse v es p).full_text = pyStrip (pyJoin " " (es.map CaptionEntry.text)) := by
  simp [mkResponse, fullText_spec]

theorem mkLangResponse_transcript (v lc : String) (es : List CaptionEntry)
    (p : Option String) : (mkLangResponse v lc es p).transcript = es := by
  simp [mkLangResponse, formatEntries_id]

theorem mkLangResponse_total (v lc : String) (es : List CaptionEntry)
    (p : Option String) :
    (mkLangResponse v lc es p).total_entries
      = (mkLangResponse v lc es p).transcript.length := rfl

theorem mkLangResponse_full_text (v lc : String) (es : List CaptionEntry)
    (p : Option String) :
    (mkLangResponse v lc es p).full_text
      = pyStrip (pyJoin " " (es.map CaptionEntry.text)) := by
  simp [mkLangResponse, fullText_spec]

/-- Every successful result of the default-transcript handler is the
envelope of some entry list. -/
theorem get_transcript_ok_shape (P : Provider) (video_id : String)
    (proxy : Option String) (r : TranscriptResponse)
    (h : (get_transcript P video_id proxy).fst = .ok r) :
    ∃ es, r = mkResponse video_id es proxy := by
  by_cases hv : video_id = ""
  · simp [get_transcript, get_transcript_body, runHandler, hv] at h
  · cases h1 : P.getTranscript video_id none (mkProxies proxy) with
    | ok es =>
      simp [get_transcript, get_transcript_body, runHandler, hv, h1] at h
      exact ⟨es, h.symm⟩
    | err e1 =>
      cases h2 : P.getTranscript video_id (some ["en", "en-US", "en-GB"]) none with
      | ok es =>
        simp [get_transcript, get_transcript_body, runHandler, hv, h1, h2] at h
        exact ⟨es, h.symm⟩
      | err e2 =>
        cases h3 : P.listTranscripts video_id with
        | ok m =>
          cases h4 : P.findTranscriptFetch video_id ["en", "en-US"] with
          | ok es =>
            simp [get_transcript, get_transcript_body, runHandler, hv, h1, h2, h3, h4] at h
            exact ⟨es, h.symm⟩
          | err e4 =>
            simp [get_transcript, get_transcript_body, runHandler, hv, h1, h2, h3, h4] at h
        | err e3 =>
          simp [get_transcript, get_transcript_body, runHandler, hv, h1, h2, h3] at h

/-- Every successful result of the language handler is the language envelope
of the entries the single fetch returned. -/
theorem get_lang_ok_shape (P : Provider) (language_code video_id : String)
    (proxy : Option String) (r : TranscriptLangResponse)
    (h : (get_transcript_with_language P language_code video_id proxy).fst = .ok r) :
    ∃ es, r = mkLangResponse video_id language_code es proxy
      ∧ P.getTranscript video_id (some [language_code]) (mkProxies proxy) = .ok es := by
  by_cases hv : video_id = ""
  · simp [get_transcript_with_language, get_transcript_with_language_body,
      runHandler, hv] at h
  · cases h1 : P.getTranscript video_id (some [language_code]) (mkProxies proxy) with
    | ok es =>
      simp [get_transcript_with_language, get_transcript_with_language_body,
        runHandler, hv, h1] at h
      exact ⟨es, h.symm, rfl⟩
    | err e1 =>
      simp [get_transcript_with_language, get_transcript_with_language_body,
        runHandler, langFallback, hv, h1] at h

/-- Every successful result of the language-listing handler is the listing
envelope of what the enumeration returned. -/
theorem get_langs_ok_shape (P : Provider) (video_id : String)
    (proxy : Option String) (r : LanguagesResponse)
    (h : (get_available_languages P video_id proxy).fst = .ok r) :
    ∃ m, P.listTranscripts video_id = .ok m ∧ r.proxy_used = proxy.isSome := by
  by_cases hv : video_id = ""
  · simp [get_available_languages, get_available_languages_body, runHandler, hv] at h
  · cases h1 : P.listTranscripts video_id with
    | ok m =>
      simp [get_available_languages, get_available_languages_body, runHandler,
        hv, h1] at h
      exact ⟨m, rfl, by rw [← h]⟩
    | err e1 =>
      by_cases hc : strContains e1 "Video unavailable" = true
      · simp [get_available_languages, get_available_languages_body, runHandler,
          hv, h1, hc] at h
      · simp [get_available_languages, get_available_languages_body, runHandler,
          hv, h1, hc] at h

/-! ### Claim theorems -/

/-- C7: for every request to any of the three data-returning operations in
which `video_id` is the empty string, the operation fails with a 400
bad-request error and the provider-call trace is empty. -/
theorem empty_video_id_rejected :
    ∀ (P : Provider) (proxy : Option String) (language_code : String),
      get_transcript P "" proxy
        = (.error ⟨400, "Invalid YouTube video ID or URL"⟩, [])
      ∧ get_transcript_with_language P language_code "" proxy
        = (.error ⟨400, "Invalid YouTube video ID or URL"⟩, [])
      ∧ get_available_languages P "" proxy
        = (.error ⟨400, "Invalid YouTube video ID or URL"⟩, []) := by
  intro P proxy language_code
  refine ⟨rfl, rfl, rfl⟩

/-- C9: in every successful response from any of the three data-returning
operations, `proxy_used` equals `Option.isSome proxy`: whether the proxy
query parameter was supplied, regardless of whether it was forwarded
downstream, including the empty-string proxy that is present but falsy. -/
theorem proxy_used_reflects_presence (P : Provider)
    (video_id language_code : String) (proxy : Option String) :
    (∀ r : TranscriptResponse,
      (get_transcript P video_id proxy).fst = .ok r → r.proxy_used = proxy.isSome)
    ∧ (∀ r : TranscriptLangResponse,
      (get_transcript_with_language P language_code video_id proxy).fst = .ok r →
        r.proxy_used = proxy.isSome)
    ∧ (∀ r : LanguagesResponse,
      (get_available_languages P video_id proxy).fst = .ok r →
        r.proxy_used = proxy.isSome) := by
  refine ⟨?_, ?_, ?_⟩
  · intro r h
    obtain ⟨es, rfl⟩ := get_transcript_ok_shape P video_id proxy r h
    rfl
  · intro r h
    obtain ⟨es, rfl, -⟩ := get_lang_ok_shape P language_code video_id proxy r h
    rfl
  · intro r h
    obtain ⟨m, -, hp⟩ := get_langs_ok_shape P video_id proxy r h
    exact hp

/-- C9 witness: the empty-string proxy is present but falsy (it is not
forwarded), yet `proxy_used` is true. -/
theorem proxy_used_reflects_presence_witness :
    (mkResponse "vid" sampleEntries (some "")).proxy_used
      = (some "" : Option String).isSome :=
  (proxy_used_reflects_presence Pok "vid" "en" (some "")).1
    (mkResponse "vid" sampleEntries (some "")) rfl

/-- C1: on every successful retrieval of either transcript operation the
response is the envelope of the entries the provider returned, with
`total_entries` equal to the transcript length, the transcript equal to the
entries in order carrying exactly the fields text, start, duration, and
`full_text` equal to the space-joined concatenation of the texts in order,
trimmed. -/
theorem transcript_success_contract (P : Provider)
    (video_id language_code : String) (proxy : Option String)
    (entries : List CaptionEntry)
    (hvid : ¬ video_id = "")
    (h1 : P.getTranscript video_id none (mkProxies proxy) = .ok entries)
    (hL : P.getTranscript video_id (some [language_code]) (mkProxies proxy)
      = .ok entries) :
    ((get_transcript P video_id proxy).fst
        = .ok (mkResponse video_id entries proxy)
      ∧ (get_transcript_with_language P language_code video_id proxy).fst
        = .ok (mkLangResponse video_id language_code entries proxy))
    ∧ ((mkResponse video_id entries proxy).transcript = entries
      ∧ (mkResponse video_id entries proxy).total_entries
          = (mkResponse video_id entries proxy).transcript.length
      ∧ (mkResponse video_id entries proxy).full_text
          = pyStrip (pyJoin " " (entries.map CaptionEntry.text)))
    ∧ ((mkLangResponse video_id language_code entries proxy).transcript = entries
      ∧ (mkLangResponse video_id language_code entries proxy).total_entries
          = (mkLangResponse video_id language_code entries proxy).transcript.length
      ∧ (mkLangResponse video_id language_code entries proxy).full_text
          = pyStrip (pyJoin " " (entries.map CaptionEntry.text)))
    ∧ (∀ (Q : Provider) (r : TranscriptResponse),
        (get_transcript Q video_id proxy).fst = .ok r →
          r.total_entries = r.transcript.length
          ∧ r.full_text = pyStrip (pyJoin " " (r.transcript.map CaptionEntry.text)))
    ∧ (∀ (Q : Provider) (r : TranscriptLangResponse),
        (get_transcript_with_language Q language_code video_id proxy).fst = .ok r →
          r.total_entries = r.transcript.length
          ∧ r.full_text = pyStrip (pyJoin " " (r.transcript.map CaptionEntry.text))) := by
  refine ⟨⟨?_, ?_⟩,
    ⟨mkResponse_transcript _ _ _, mkResponse_total _ _ _, mkResponse_full_text _ _ _⟩,
    ⟨mkLangResponse_transcript _ _ _ _, mkLangResponse_total _ _ _ _,
      mkLangResponse_full_text _ _ _ _⟩, ?_, ?_⟩
  · simp [get_transcript, get_transcript_body, runHandler, hvid, h1]
  · simp [get_transcript_with_language, get_transcript_with_language_body,
      runHandler, hvid, hL]
  · intro Q r h
    obtain ⟨es, rfl⟩ := get_transcript_ok_shape Q video_id proxy r h
    exact ⟨mkResponse_total _ _ _,
      by rw [mkResponse_full_text, mkResponse_transcript]⟩
  · intro Q r h
    obtain ⟨es, rfl, -⟩ := get_lang_ok_shape Q language_code video_id proxy r h
    exact ⟨mkLangResponse_total _ _ _ _,
      by rw [mkLangResponse_full_text, mkLangResponse_transcript]⟩

/-- C1 witness at a concrete provider and entry list. -/
theorem transcript_success_contract_witness :
    (get_transcript Pok "vid" none).fst = .ok (mkResponse "vid" sampleEntries none)
    ∧ (mkResponse "vid" sampleEntries none).full_text
        = pyStrip (pyJoin " " (sampleEntries.map CaptionEntry.text)) :=
  ⟨(transcript_success_contract Pok "vid" "en" none sampleEntries
      (by decide) rfl rfl).1.1,
   (transcript_success_contract Pok "vid" "en" none sampleEntries
      (by decide) rfl rfl).2.1.2.2⟩

/-- C5: the default-transcript operation performs an ordered fallback that
stops at the first success: step 1 with no language preference (through the
proxy if supplied), on failure step 2 restricted to en, en-US, en-GB with no
proxy, on failure step 3 enumerating and fetching the best match among en,
en-US; the trace shows a later step is attempted only after the preceding
one failed, and the result is a `TranscriptResponse`, the envelope without a
language field. -/
theorem default_fallback_chain (P : Provider) (video_id : String)
    (proxy : Option String) (hvid : ¬ video_id = "") :
    (∀ entries, P.getTranscript video_id none (mkProxies proxy) = .ok entries →
      get_transcript P video_id proxy
        = (.ok (mkResponse video_id entries proxy),
           [.getTranscript video_id none (mkProxies proxy)]))
    ∧ (∀ e1 entries,
        P.getTranscript video_id none (mkProxies proxy) = .err e1 →
        P.getTranscript video_id (some ["en", "en-US", "en-GB"]) none = .ok entries →
        get_transcript P video_id proxy
          = (.ok (mkResponse video_id entries proxy),
             [.getTranscript video_id none (mkProxies proxy),
              .getTranscript video_id (some ["en", "en-US", "en-GB"]) none]))
    ∧ (∀ e1 e2 m entries,
        P.getTranscript video_id none (mkProxies proxy) = .err e1 →
        P.getTranscript video_id (some ["en", "en-US", "en-GB"]) none = .err e2 →
        P.listTranscripts video_id = .ok m →
        P.findTranscriptFetch video_id ["en", "en-US"] = .ok entries →
        get_transcript P video_id proxy
          = (.ok (mkResponse video_id entries proxy),
             [.getTranscript video_id none (mkProxies proxy),
              .getTranscript video_id (some ["en", "en-US", "en-GB"]) none,
              .listTranscripts video_id,
              .findTranscriptFetch video_id ["en", "en-US"]])) := by
  refine ⟨?_, ?_, ?_⟩
  · intro entries h1
    simp [get_transcript, get_transcript_body, runHandler, hvid, h1]
  · intro e1 entries h1 h2
    simp [get_transcript, get_transcript_body, runHandler, hvid, h1, h2]
  · intro e1 e2 m entries h1 h2 h3 h4
    simp [get_transcript, get_transcript_body, runHandler, hvid, h1, h2, h3, h4]

/-- C5 witness: step 1 fails, step 2 succeeds without the proxy, and the
operation stops there. -/
theorem default_fallback_chain_witness :
    get_transcript Pfb "vid" (some "proxyurl")
      = (.ok (mkResponse "vid" sampleEntries (some "proxyurl")),
         [.getTranscript "vid" none (mkProxies (some "proxyurl")),
          .getTranscript "vid" (some ["en", "en-US", "en-GB"]) none]) :=
  (default_fallback_chain Pfb "vid" (some "proxyurl") (by decide)).2.1
    "blocked" sampleEntries rfl rfl

/-- C6: the language operation makes exactly one caption-fetch attempt,
restricted to the single requested language; on success the response carries
`language = language_code`, and on failure the only further provider call is
the enumeration, never a caption fetch in another language, and the
operation fails. -/
theorem language_single_attempt (P : Provider) (language_code video_id : String)
    (proxy : Option String) (hvid : ¬ video_id = "") :
    (∀ entries,
      P.getTranscript video_id (some [language_code]) (mkProxies proxy) = .ok entries →
      get_transcript_with_language P language_code video_id proxy
        = (.ok (mkLangResponse video_id language_code entries proxy),
           [.getTranscript video_id (some [language_code]) (mkProxies proxy)])
      ∧ (mkLangResponse video_id language_code entries proxy).language = language_code)
    ∧ (∀ e,
      P.getTranscript video_id (some [language_code]) (mkProxies proxy) = .err e →
      get_transcript_with_language P language_code video_id proxy
        = (.error ⟨404, "No transcripts found for this video in language: "
              ++ language_code⟩,
           [.getTranscript video_id (some [language_code]) (mkProxies proxy),
            .listTranscripts video_id])) := by
  constructor
  · intro entries h
    refine ⟨?_, rfl⟩
    simp [get_transcript_with_language, get_transcript_with_language_body,
      runHandler, hvid, h]
  · intro e h
    cases h3 : P.listTranscripts video_id <;>
      simp [get_transcript_with_language, get_transcript_with_language_body,
        langFallback, runHandler, hvid, h, h3]

/-- C6 witness: one success and one failure instance of the single-attempt
behavior. -/
theorem language_single_attempt_witness :
    get_transcript_with_language Pok "fr" "vid" none
      = (.ok (mkLangResponse "vid" "fr" sampleEntries none),
         [.getTranscript "vid" (some ["fr"]) none])
    ∧ get_transcript_with_language Perr "fr" "vid" none
      = (.error ⟨404, "No transcripts found for this video in language: fr"⟩,
         [.getTranscript "vid" (some ["fr"]) none, .listTranscripts "vid"]) :=
  ⟨((language_single_attempt Pok "fr" "vid" none (by decide)).1
      sampleEntries rfl).1,
   (language_single_attempt Perr "fr" "vid" none (by decide)).2
      "step failed" rfl⟩

/-- C4: if all three fallback steps of the default operation fail, the
operation fails with status 503 and a detail string that spells out the
remediation hints and embeds the step-1 error message. -/
theorem exhaustion_returns_503 (P : Provider) (video_id : String)
    (proxy : Option String) (e1 e2 : String)
    (hvid : ¬ video_id = "")
    (h1 : P.getTranscript video_id none (mkProxies proxy) = .err e1)
    (h2 : P.getTranscript video_id (some ["en", "en-US", "en-GB"]) none = .err e2)
    (h3 : step3Fails P video_id) :
    (get_transcript P video_id proxy).fst = .error ⟨503, blockedDetail e1⟩
    ∧ blockedDetail e1
        = "YouTube is blocking requests. Try: 1) Different video ID, 2) Add ?proxy=YOUR_PROXY_URL, 3) Try again later. Original error: "
          ++ e1 := by
  refine ⟨?_, rfl⟩
  rcases h3 with ⟨e3, h3⟩ | ⟨m, e4, h3, h4⟩
  · simp [get_transcript, get_transcript_body, runHandler, hvid, h1, h2, h3]
  · simp [get_transcript, get_transcript_body, runHandler, hvid, h1, h2, h3, h4]

/-- C4 witness at a provider whose every call fails. -/
theorem exhaustion_returns_503_witness :
    (get_transcript Perr "vid" none).fst
      = .error ⟨503, blockedDetail "step failed"⟩ :=
  (exhaustion_returns_503 Perr "vid" none "step failed" "step failed"
    (by decide) rfl rfl (Or.inl ⟨"enumeration failed", rfl⟩)).1

/-- C10: every failure of the single caption fetch in the language operation
yields status 404 with the generic not-found detail, whatever the text of
the provider error and whatever the enumeration does; the substring map to a
500 internal error is unreachable for provider-raised failures. -/
theorem language_failure_always_404 (P : Provider)
    (language_code video_id : String) (proxy : Option String) (e : String)
    (hvid : ¬ video_id = "")
    (hf : P.getTranscript video_id (some [language_code]) (mkProxies proxy) = .err e) :
    (get_transcript_with_language P language_code video_id proxy).fst
      = .error ⟨404, "No transcripts found for this video in language: "
          ++ language_code⟩ := by
  cases h3 : P.listTranscripts video_id <;>
    simp [get_transcript_with_language, get_transcript_with_language_body,
      langFallback, runHandler, hvid, hf, h3]

/-- C10 witness: the provider error text matches no recognized pattern, yet
the status is 404, not 500. -/
theorem language_failure_always_404_witness :
    (get_transcript_with_language Perr "de" "vid" none).fst
      = .error ⟨404, "No transcripts found for this video in language: de"⟩ :=
  language_failure_always_404 Perr "de" "vid" none "step failed" (by decide) rfl

/-- C3 counterexample: a step-1 error whose message contains
"No transcripts were found", with all fallback steps exhausted, yields 503,
not the 404 the claim predicts; the substring mapping is bypassed because
exhaustion raises an HTTPException that the outer clauses re-raise
unchanged. -/
theorem default_exhaustion_ignores_message :
    (get_transcript Pblk "vid" none).fst
      = .error ⟨503,
          blockedDetail "No transcripts were found for any of the requested language codes"⟩
    ∧ strContains "No transcripts were found for any of the requested language codes"
        "No transcripts were found" = true
    ∧ errorMapTranscript "No transcripts were found for any of the requested language codes"
      = ⟨404, "No transcripts found for this video"⟩ := by
  refine ⟨rfl, by decide, by decide⟩

/-- C3 amended: the substring error mapping of the default-transcript
operation is dead code for provider failures: every failure of the
operation has status 400 (empty id) or 503 (fallback exhausted), never the
404 or 500 the mapping would produce. -/
theorem default_failure_statuses (P : Provider) (video_id : String)
    (proxy : Option String) (err : HTTPError)
    (h : (get_transcript P video_id proxy).fst = .error err) :
    err.status = 400 ∨ err.status = 503 := by
  by_cases hv : video_id = ""
  · left
    simp [get_transcript, get_transcript_body, runHandler, hv] at h
    rw [← h]
  · cases h1 : P.getTranscript video_id none (mkProxies proxy) with
    | ok es =>
      simp [get_transcript, get_transcript_body, runHandler, hv, h1] at h
    | err e1 =>
      cases h2 : P.getTranscript video_id (some ["en", "en-US", "en-GB"]) none with
      | ok es =>
        simp [get_transcript, get_transcript_body, runHandler, hv, h1, h2] at h
      | err e2 =>
        cases h3 : P.listTranscripts video_id with
        | ok m =>
          cases h4 : P.findTranscriptFetch video_id ["en", "en-US"] with
          | ok es =>
            simp [get_transcript, get_transcript_body, runHandler,
              hv, h1, h2, h3, h4] at h
          | err e4 =>
            right
            simp [get_transcript, get_transcript_body, runHandler,
              hv, h1, h2, h3, h4] at h
            rw [← h]
        | err e3 =>
          right
          simp [get_transcript, get_transcript_body, runHandler,
            hv, h1, h2, h3] at h
          rw [← h]

/-- C3 amended witness. -/
theorem default_failure_statuses_witness :
    (⟨503, blockedDetail "step failed"⟩ : HTTPError).status = 400
    ∨ (⟨503, blockedDetail "step failed"⟩ : HTTPError).status = 503 :=
  default_failure_statuses Perr "vid" none ⟨503, blockedDetail "step failed"⟩ rfl

/-- C2: at a video whose enumeration succeeds and lists `en`, requesting
`fr` fails with the generic 404 that does not mention `en`: the detailed
404 listing the available language codes, built at lines 124-127, is raised
inside the inner `try` and caught by its own blanket `except Exception`
(line 128), which replaces it with the generic 404 of line 129. -/
theorem language_fallback_detail_swallowed :
    (get_transcript_with_language Pfr "fr" "vid" none).fst
      = .error ⟨404, "No transcripts found for this video in language: fr"⟩
    ∧ Pfr.listTranscripts "vid" = .ok [enDescriptor]
    ∧ strContains "No transcripts found for this video in language: fr" "en"
      = false := by
  refine ⟨rfl, rfl, by decide⟩

/-- C8: the language-listing operation ignores the proxy parameter: for two
requests differing only in the proxy value the provider-call trace is
identical (and mentions no proxy at all), and the two results agree once the
`proxy_used` flag is erased. -/
theorem get_available_languages_ok_red (P : Provider) (video_id : String)
    (p : Option String) (m : List LanguageDescriptor)
    (hv : ¬ video_id = "") (h1 : P.listTranscripts video_id = .ok m) :
    get_available_languages P video_id p
      = (.ok { video_id := video_id, available_languages := m,
               total_languages := m.length, proxy_used := p.isSome },
         [.listTranscripts video_id]) := by
  simp [get_available_languages, get_available_languages_body, runHandler, hv, h1]

theorem get_available_languages_err_red (P : Provider) (video_id : String)
    (p : Option String) (e : String)
    (hv : ¬ video_id = "") (h1 : P.listTranscripts video_id = .err e) :
    get_available_languages P video_id p
      = (.error (if strContains e "Video unavailable" then
            ⟨404, "Video not found or unavailable"⟩
          else ⟨500, "Error retrieving languages: " ++ e⟩),
         [.listTranscripts video_id]) := by
  by_cases hc : strContains e "Video unavailable" = true <;>
    simp [get_available_languages, get_available_languages_body, runHandler,
      hv, h1, hc]

theorem languages_proxy_not_applied (P : Provider) (video_id : String)
    (p1 p2 : Option String) :
    (get_available_languages P video_id p1).snd
      = (get_available_languages P video_id p2).snd
    ∧ (∀ c, c ∈ (get_available_languages P video_id p1).snd →
        c = ProviderCall.listTranscripts video_id)
    ∧ Except.map eraseProxyUsed (get_available_languages P video_id p1).fst
      = Except.map eraseProxyUsed (get_available_languages P video_id p2).fst := by
  by_cases hv : video_id = ""
  · refine ⟨?_, ?_, ?_⟩ <;>
      simp [get_available_languages, get_available_languages_body, runHandler, hv]
  · cases h1 : P.listTranscripts video_id with
    | ok m =>
      have r1 := get_available_languages_ok_red P video_id p1 m hv h1
      have r2 := get_available_languages_ok_red P video_id p2 m hv h1
      refine ⟨?_, ?_, ?_⟩
      · rw [r1, r2]
      · rw [r1]
        intro c hc
        simpa using hc
      · rw [r1, r2]
        rfl
    | err e1 =>
      have r1 := get_available_languages_err_red P video_id p1 e1 hv h1
      have r2 := get_available_languages_err_red P video_id p2 e1 hv h1
      refine ⟨?_, ?_, ?_⟩
      · rw [r1, r2]
      · rw [r1]
        intro c hc
        simpa using hc
      · rw [r1, r2]

/-- C8 witness: a proxied and an unproxied request produce the same trace. -/
theorem languages_proxy_not_applied_witness :
    (get_available_languages Pok "vid" (some "proxyurl")).snd
      = (get_available_languages Pok "vid" none).snd
    ∧ Except.map eraseProxyUsed (get_available_languages Pok "vid" (some "proxyurl")).fst
      = Except.map eraseProxyUsed (get_available_languages Pok "vid" none).fst :=
  ⟨(languages_proxy_not_applied Pok "vid" (some "proxyurl") none).1,
   (languages_proxy_not_applied Pok "vid" (some "proxyurl") none).2.2⟩
